import Mathlib

/-!
Shallow embedding of `thunder/utils/context.py` (class `ThunderContext` and the
module-level `preprocess` helper).

External collaborators (the Spark engine, `SeriesLoader`, `ImagesLoader`,
`PreProcessor`, `scipy.io.loadmat`, the filesystem) are modelled as explicit
function parameters.  Each loading method returns an `Except ThunderError r`
where `r` records which delegate was invoked and with which arguments, so that
dispatch decisions and raised exceptions are both observable.
-/

/-- Python exceptions raised by `context.py`: `ValueError`,
`NotImplementedError` (with or without a message), `IOError`, and bare
`Exception`. -/
inductive ThunderError where
  | valueError (msg : String)
  | notImplementedError (msg : Option String)
  | ioError (msg : String)
  | exception (msg : String)
deriving DecidableEq, Repr

/-- Python `str.lower()` restricted to ASCII, which is all the code compares. -/
def pyLower (s : String) : String := ⟨s.data.map Char.toLower⟩

/-- Python truthiness of an `Optional[str]`: `None` and `""` are falsy. -/
def pyTruthy : Option String → Bool
  | none => false
  | some s => decide (s ≠ "")

/-- `startsWithChars p l` : the char list `p` is a prefix of `l`. -/
def startsWithChars : List Char → List Char → Bool
  | [], _ => true
  | _ :: _, [] => false
  | p :: ps, c :: cs => p == c && startsWithChars ps cs

/-- `containsChars p l` : the char list `p` occurs contiguously inside `l`. -/
def containsChars (p : List Char) : List Char → Bool
  | [] => startsWithChars p []
  | c :: cs => startsWithChars p (c :: cs) || containsChars p cs

/-- Python `pat in s` on strings (contiguous-substring test). -/
def pyIn (pat s : String) : Bool := containsChars pat.data s.data

/-- Python `os.path.join(a, b)` (posix flavour, two arguments). -/
def ospathJoin (a b : String) : String :=
  if b.startsWith "/" then b
  else if a = "" ∨ a.endsWith "/" then a ++ b
  else a ++ "/" ++ b

/-- The configuration record read from a `conf.json` side-file; the code
reads `params['nkeys']` and `params['nvalues']` unconditionally. -/
structure ConfParams where
  nkeys : Nat
  nvalues : Nat
deriving DecidableEq, Repr

/-- Constructor arguments of `SeriesLoader(nkeys=..., nvalues=..., minPartitions=...)`. -/
structure SeriesLoaderArgs where
  nkeys : Nat
  nvalues : Option Nat
  minPartitions : Option Nat
deriving DecidableEq, Repr

/-- Which `SeriesLoader` method `loadSeries` delegated to, with the loader
it was constructed with and the data path it received. -/
inductive SeriesResult where
  | fromText (loader : SeriesLoaderArgs) (datafile : String)
  | fromBinary (loader : SeriesLoaderArgs) (datafile : String)
deriving DecidableEq, Repr

/-- The loader a series-load dispatch was performed with. -/
def SeriesResult.loader : SeriesResult → SeriesLoaderArgs
  | .fromText l _ => l
  | .fromBinary l _ => l

/-- `ThunderContext.loadSeries`.  `loadConf` models
`SeriesLoader.loadConf(datafile, conffile=conffile)`, returning `none` when no
configuration side-file is discovered. -/
def loadSeries (loadConf : String → String → Option ConfParams)
    (datafile : String) (nkeys : Nat := 3) (nvalues : Option Nat := none)
    (inputformat : String := "binary") (minPartitions : Option Nat := none)
    (conffile : String := "conf.json") : Except ThunderError SeriesResult :=
  if ¬ (pyLower inputformat = "text" ∨ pyLower inputformat = "binary") then
    .error (.valueError
      ("inputformat must be either \x27text\x27 or \x27binary\x27, got " ++ inputformat))
  else
    let loaderE : Except ThunderError SeriesLoaderArgs :=
      match loadConf datafile conffile with
      | none =>
          if pyLower inputformat = "binary" ∧ nvalues = none then
            .error (.valueError
              "Must specify nvalues for binary input if not providing a configuration file")
          else
            .ok ⟨nkeys, nvalues, minPartitions⟩
      | some params => .ok ⟨params.nkeys, some params.nvalues, minPartitions⟩
    match loaderE with
    | .error e => .error e
    | .ok loader =>
        if pyLower inputformat = "text" then .ok (.fromText loader datafile)
        else .ok (.fromBinary loader datafile)

/-- Constructor arguments of `ImagesLoader(dims=...)`. -/
structure ImagesLoaderArgs where
  dims : Option (List Nat)
deriving DecidableEq, Repr

/-- Which `ImagesLoader` method `loadImages` delegated to. -/
inductive ImagesResult where
  | fromStack (loader : ImagesLoaderArgs) (datafile : String)
  | fromTif (loader : ImagesLoaderArgs) (datafile : String)
  | fromPng (loader : ImagesLoaderArgs) (datafile : String)
deriving DecidableEq, Repr

/-- `ThunderContext.loadImages`. -/
def loadImages (datafile : String) (dims : Option (List Nat) := none)
    (inputformat : String := "stack") : Except ThunderError ImagesResult :=
  if ¬ (pyLower inputformat = "stack" ∨ pyLower inputformat = "png" ∨
        pyLower inputformat = "tif") then
    .error (.valueError
      ("inputformat must be either \x27stack\x27, \x27png\x27, or \x27tif\x27, got " ++ inputformat))
  else
    let loader : ImagesLoaderArgs := ⟨dims⟩
    if pyLower inputformat = "stack" then .ok (.fromStack loader datafile)
    else if pyLower inputformat = "tif" then .ok (.fromTif loader datafile)
    else .ok (.fromPng loader datafile)

/-- Module-level `preprocess(data, method=None)`.  `pre` models
`PreProcessor(method).get`; a distributed key-value collection is modelled as
its list of records; `data.mapValues(f)` is a map touching only the second
components. -/
def preprocess {K V : Type} (pre : String → V → V) (data : List (K × V))
    (method : Option String := none) : List (K × V) :=
  if pyTruthy method then
    data.map (fun kv => (kv.1, pre (method.getD "") kv.2))
  else data

/-- `ThunderContext.loadExample`.  `path` models
`os.path.dirname(os.path.realpath(__file__))`. -/
def loadExample (loadConf : String → String → Option ConfParams)
    (path : String) (dataset : String) : Except ThunderError SeriesResult :=
  if dataset = "iris" then
    loadSeries loadConf (ospathJoin path "data/iris.txt") 3 none "text" (some 1) "conf.json"
  else if dataset = "fish" then
    loadSeries loadConf (ospathJoin path "data/fish.txt") 3 none "text" (some 1) "conf.json"
  else
    .error (.notImplementedError (some ("Dataset \x27" ++ dataset ++ "\x27 not found")))

/-- `ThunderContext.loadExampleEC2`.  `master` is `self._sc.master`;
`getTrials u` models fetching `u` with `sc.textFile(u).first()`, parsing it as
JSON and converting its `trials` field with `numpy.asarray`. -/
def loadExampleEC2 (loadConf : String → String → Option ConfParams)
    (master : String) (getTrials : String → List Int) (dataset : String) :
    Except ThunderError (SeriesResult × List Int) :=
  if !(pyIn "ec" master) then
    .error (.exception "must be running on EC2 to load this example data sets")
  else if dataset = "zebrafish-optomotor-response" then
    let path := "zebrafish.datasets/optomotor-response/1/"
    match loadSeries loadConf ("s3n://" ++ path ++ "data/dat_plane*.txt")
        3 none "text" (some 1000) "conf.json" with
    | .error e => .error e
    | .ok data => .ok (data, getTrials ("s3n://" ++ path ++ "params.json"))
  else
    .error (.notImplementedError (some ("dataset \x27" ++ dataset ++ "\x27 not availiable")))

/-- `ThunderContext.loadBinaryLocal`: body is a bare `raise NotImplementedError`. -/
def loadBinaryLocal (datafile : String) (nvalues nkeys : Nat) (format : String)
    (keyfile : Option String := none) (method : Option String := none) :
    Except ThunderError Unit :=
  .error (.notImplementedError none)

/-- `ThunderContext.loadArrayLocal`: body is a bare `raise NotImplementedError`. -/
def loadArrayLocal {V : Type} (values : List V)
    (keys : Option (List (List Nat)) := none) (method : Option String := none) :
    Except ThunderError Unit :=
  .error (.notImplementedError none)

/-- The value of a numpy variable as `loadmat` returns it: its number of
dimensions and its sequence of first-axis elements (the rows iteration and
`zip` traverse, with `shape(data)[0]` their count). -/
structure MatArray (V : Type) where
  ndim : Nat
  items : List V
deriving DecidableEq, Repr

/-- A record key produced by `loadMatLocal`: either a tuple read from the key
file or a 1-based linear index from `arange`. -/
inductive MatKey where
  | tup (t : List Nat)
  | idx (i : Nat)
deriving DecidableEq, Repr

/-- `ThunderContext.loadMatLocal`.  `matVar f v` models `loadmat(f)[v]`;
`matKeys f` models `map(lambda x: tuple(x), loadmat(f)['keys'])`;
`pre` models `PreProcessor(...).get` for the final `preprocess` call;
`sc.parallelize(zip(keys, data), minPartitions)` keeps the records in order,
so the result is the record list. -/
def loadMatLocal {V : Type} (matVar : String → String → MatArray V)
    (matKeys : String → List (List Nat)) (pre : String → V → V)
    (datafile varname : String) (keyfile : Option String := none)
    (filter : Option String := none) (minPartitions : Nat := 1) :
    Except ThunderError (List (MatKey × V)) :=
  let data := matVar datafile varname
  if data.ndim > 2 then
    .error (.ioError "input data must be one or two dimensional")
  else
    let keys : List MatKey :=
      if pyTruthy keyfile then (matKeys (keyfile.getD "")).map MatKey.tup
      else (List.range data.items.length).map (fun i => MatKey.idx (i + 1))
    .ok (preprocess pre (keys.zip data.items) filter)

/-! ## General lemmas -/

/-- `preprocess` never touches keys: the key column is unchanged for every
method argument. -/
theorem preprocess_map_fst {K V : Type} (pre : String → V → V)
    (data : List (K × V)) (method : Option String) :
    (preprocess pre data method).map Prod.fst = data.map Prod.fst := by
  unfold preprocess
  by_cases h : pyTruthy method = true <;> simp [h]

/-! ## Claims -/

/-- C4: for every key-value collection, `preprocess` applied with no method
name (`None`) returns the collection unchanged — an identity, not an error. -/
theorem preprocess_none_identity {K V : Type} (pre : String → V → V)
    (data : List (K × V)) : preprocess pre data none = data := rfl

/-- C8: both declared local loaders, `loadBinaryLocal` and `loadArrayLocal`,
raise a bare `NotImplementedError` on every input; neither no-ops nor returns
a result. -/
theorem local_loaders_unimplemented :
    (∀ (datafile : String) (nvalues nkeys : Nat) (format : String)
        (keyfile method : Option String),
      loadBinaryLocal datafile nvalues nkeys format keyfile method =
        .error (.notImplementedError none)) ∧
    (∀ (V : Type) (values : List V) (keys : Option (List (List Nat)))
        (method : Option String),
      loadArrayLocal values keys method = .error (.notImplementedError none)) :=
  ⟨fun _ _ _ _ _ _ => rfl, fun _ _ _ _ => rfl⟩

/-- C9 counterexample: with the empty string as the given method name, the
preprocessing hook does not apply the looked-up transform to the values — the
Python truthiness test `if method:` treats `""` like `None`, so the collection
comes back unchanged instead of transformed. -/
theorem preprocess_empty_method_cex :
    preprocess (fun _ v => v + 1) [((0 : Nat), (0 : Nat))] (some "") ≠
      [((0 : Nat), (0 : Nat))].map
        (fun kv => (kv.1, (fun (_ : String) (v : Nat) => v + 1) "" kv.2)) := by
  decide

/-- C9 (amended): for every key-value collection and every NON-EMPTY given
method name, `preprocess` applies the looked-up transform to every value and
leaves every key unchanged. -/
theorem preprocess_applies_transform {K V : Type} (pre : String → V → V)
    (data : List (K × V)) (m : String) (hm : m ≠ "") :
    preprocess pre data (some m) = data.map (fun kv => (kv.1, pre m kv.2)) ∧
    (preprocess pre data (some m)).map Prod.fst = data.map Prod.fst := by
  refine ⟨?_, preprocess_map_fst pre data (some m)⟩
  unfold preprocess pyTruthy
  simp [hm]

/-- C9 witness: the amended statement at a concrete transform, collection and
method name. -/
theorem preprocess_applies_transform_witness :
    ("sq" : String) ≠ "" ∧
    preprocess (fun _ v => v * v) [((1 : Nat), (3 : Nat)), (2, 4)] (some "sq") =
      [((1 : Nat), (3 : Nat)), (2, 4)].map (fun kv => (kv.1, kv.2 * kv.2)) :=
  ⟨by decide,
    (preprocess_applies_transform (fun _ v => v * v)
      [((1 : Nat), (3 : Nat)), (2, 4)] "sq" (by decide)).1⟩

/-- C1: when `loadConf` discovers a configuration side-file, `loadSeries`
constructs its loader from the file's `nkeys`/`nvalues`, overriding the
caller-supplied `nkeys`/`nvalues` arguments (even when both are present). -/
theorem loadSeries_conf_overrides (loadConf : String → String → Option ConfParams)
    (datafile : String) (nkeys : Nat) (nvalues : Option Nat) (inputformat : String)
    (minPartitions : Option Nat) (conffile : String) (params : ConfParams)
    (hconf : loadConf datafile conffile = some params)
    (hfmt : pyLower inputformat = "text" ∨ pyLower inputformat = "binary") :
    ∃ r, loadSeries loadConf datafile nkeys nvalues inputformat minPartitions conffile =
        .ok r ∧
      r.loader = ⟨params.nkeys, some params.nvalues, minPartitions⟩ := by
  rcases hfmt with h | h
  · refine ⟨.fromText ⟨params.nkeys, some params.nvalues, minPartitions⟩ datafile, ?_, rfl⟩
    unfold loadSeries
    rw [h]
    simp [hconf]
  · refine ⟨.fromBinary ⟨params.nkeys, some params.nvalues, minPartitions⟩ datafile, ?_, rfl⟩
    unfold loadSeries
    rw [h]
    simp [hconf]

/-- C1 witness: caller passes `nkeys = 3`, `nvalues = 5`; the configuration
file says `nkeys = 7`, `nvalues = 9`; the loader is built with 7 and 9. -/
theorem loadSeries_conf_overrides_witness :
    ((fun _ _ => some (⟨7, 9⟩ : ConfParams)) "d" "conf.json" =
      some (⟨7, 9⟩ : ConfParams)) ∧
    (pyLower "binary" = "text" ∨ pyLower "binary" = "binary") ∧
    ∃ r, loadSeries (fun _ _ => some ⟨7, 9⟩) "d" 3 (some 5) "binary" none "conf.json" =
        .ok r ∧ r.loader = ⟨7, some 9, none⟩ :=
  ⟨rfl, Or.inr (by decide),
    loadSeries_conf_overrides (fun _ _ => some ⟨7, 9⟩) "d" 3 (some 5) "binary" none
      "conf.json" ⟨7, 9⟩ rfl (Or.inr (by decide))⟩

/-- C2: binary series loading with no `nvalues` and no discoverable
configuration file raises `ValueError`, for every environment (so before any
engine work); supplying `nvalues`, or a configuration file carrying `nvalues`,
makes it dispatch to the binary loading path instead. -/
theorem loadSeries_binary_requires_nvalues
    (loadConf : String → String → Option ConfParams) (datafile : String)
    (nkeys : Nat) (minPartitions : Option Nat) (conffile : String)
    (hconf : loadConf datafile conffile = none) :
    loadSeries loadConf datafile nkeys none "binary" minPartitions conffile =
      .error (.valueError
        "Must specify nvalues for binary input if not providing a configuration file") ∧
    (∀ v, loadSeries loadConf datafile nkeys (some v) "binary" minPartitions conffile =
      .ok (.fromBinary ⟨nkeys, some v, minPartitions⟩ datafile)) ∧
    (∀ (loadConf2 : String → String → Option ConfParams) (p : ConfParams),
      loadConf2 datafile conffile = some p →
      loadSeries loadConf2 datafile nkeys none "binary" minPartitions conffile =
        .ok (.fromBinary ⟨p.nkeys, some p.nvalues, minPartitions⟩ datafile)) := by
  have hb : pyLower "binary" = "binary" := by decide
  refine ⟨?_, fun v => ?_, fun loadConf2 p hp => ?_⟩
  · unfold loadSeries
    rw [hb]
    simp [hconf]
  · unfold loadSeries
    rw [hb]
    simp [hconf]
  · unfold loadSeries
    rw [hb]
    simp [hp]

/-- C2 witness: the three behaviours at a concrete path with no side-file
(and, for the third conjunct, with one). -/
theorem loadSeries_binary_requires_nvalues_witness :
    ((fun (_ _ : String) => (none : Option ConfParams)) "d" "conf.json" = none) ∧
    loadSeries (fun _ _ => none) "d" 3 none "binary" none "conf.json" =
      .error (.valueError
        "Must specify nvalues for binary input if not providing a configuration file") ∧
    loadSeries (fun _ _ => none) "d" 3 (some 11) "binary" none "conf.json" =
      .ok (.fromBinary ⟨3, some 11, none⟩ "d") ∧
    loadSeries (fun _ _ => some ⟨2, 8⟩) "d" 3 none "binary" none "conf.json" =
      .ok (.fromBinary ⟨2, some 8, none⟩ "d") :=
  ⟨rfl,
    (loadSeries_binary_requires_nvalues (fun _ _ => none) "d" 3 none "conf.json" rfl).1,
    (loadSeries_binary_requires_nvalues (fun _ _ => none) "d" 3 none "conf.json" rfl).2.1 11,
    (loadSeries_binary_requires_nvalues (fun _ _ => none) "d" 3 none "conf.json" rfl).2.2
      (fun _ _ => some ⟨2, 8⟩) ⟨2, 8⟩ rfl⟩

/-- C3: a format tag that (case-insensitively) is not `text`/`binary` makes
`loadSeries` raise `ValueError` naming the tag, for every environment; a tag
not (case-insensitively) `stack`/`png`/`tif` makes `loadImages` raise
`ValueError` naming the tag — in both cases no loader result is produced. -/
theorem load_invalid_format_errors (inputformat : String) :
    (¬ (pyLower inputformat = "text" ∨ pyLower inputformat = "binary") →
      ∀ (loadConf : String → String → Option ConfParams) (datafile : String)
        (nkeys : Nat) (nvalues : Option Nat) (minPartitions : Option Nat)
        (conffile : String),
      loadSeries loadConf datafile nkeys nvalues inputformat minPartitions conffile =
        .error (.valueError
          ("inputformat must be either \x27text\x27 or \x27binary\x27, got " ++ inputformat))) ∧
    (¬ (pyLower inputformat = "stack" ∨ pyLower inputformat = "png" ∨
          pyLower inputformat = "tif") →
      ∀ (datafile : String) (dims : Option (List Nat)),
      loadImages datafile dims inputformat =
        .error (.valueError
          ("inputformat must be either \x27stack\x27, \x27png\x27, or \x27tif\x27, got " ++
            inputformat))) := by
  constructor
  · intro h loadConf datafile nkeys nvalues minPartitions conffile
    unfold loadSeries
    simp [h]
  · intro h datafile dims
    unfold loadImages
    simp [h]

/-- C3 witness: the tag `csv` is rejected by both loaders with a message
ending in `csv`. -/
theorem load_invalid_format_errors_witness :
    (¬ (pyLower "csv" = "text" ∨ pyLower "csv" = "binary")) ∧
    (¬ (pyLower "csv" = "stack" ∨ pyLower "csv" = "png" ∨ pyLower "csv" = "tif")) ∧
    loadSeries (fun _ _ => none) "d" 3 none "csv" none "conf.json" =
      .error (.valueError
        ("inputformat must be either \x27text\x27 or \x27binary\x27, got " ++ "csv")) ∧
    loadImages "d" none "csv" =
      .error (.valueError
        ("inputformat must be either \x27stack\x27, \x27png\x27, or \x27tif\x27, got " ++ "csv")) :=
  ⟨by decide, by decide,
    (load_invalid_format_errors "csv").1 (by decide) (fun _ _ => none) "d" 3 none none
      "conf.json",
    (load_invalid_format_errors "csv").2 (by decide) "d" none⟩

/-- Text-format series loading always dispatches to `fromText`, forwarding the
requested `minPartitions`, whether or not a configuration file is found. -/
theorem loadSeries_text_ok (loadConf : String → String → Option ConfParams)
    (datafile : String) (nkeys : Nat) (nvalues : Option Nat)
    (minPartitions : Option Nat) (conffile : String) :
    ∃ l, loadSeries loadConf datafile nkeys nvalues "text" minPartitions conffile =
        .ok (.fromText l datafile) ∧ l.minPartitions = minPartitions := by
  have ht : pyLower "text" = "text" := by decide
  rcases h : loadConf datafile conffile with _ | p
  · refine ⟨⟨nkeys, nvalues, minPartitions⟩, ?_, rfl⟩
    unfold loadSeries
    rw [ht]
    simp [h]
  · refine ⟨⟨p.nkeys, some p.nvalues, minPartitions⟩, ?_, rfl⟩
    unfold loadSeries
    rw [ht]
    simp [h]

/-- C5: the local example loader recognizes exactly `iris` and `fish`, loading
the bundled text file as text series data with one partition; every other name
raises `NotImplementedError` naming the requested dataset. -/
theorem loadExample_spec (loadConf : String → String → Option ConfParams)
    (path : String) :
    (∃ l, loadExample loadConf path "iris" =
        .ok (.fromText l (ospathJoin path "data/iris.txt")) ∧ l.minPartitions = some 1) ∧
    (∃ l, loadExample loadConf path "fish" =
        .ok (.fromText l (ospathJoin path "data/fish.txt")) ∧ l.minPartitions = some 1) ∧
    (∀ dataset, dataset ≠ "iris" → dataset ≠ "fish" →
      loadExample loadConf path dataset =
        .error (.notImplementedError
          (some ("Dataset \x27" ++ dataset ++ "\x27 not found")))) := by
  refine ⟨?_, ?_, fun dataset h1 h2 => ?_⟩
  · obtain ⟨l, hl, hmp⟩ :=
      loadSeries_text_ok loadConf (ospathJoin path "data/iris.txt") 3 none (some 1) "conf.json"
    refine ⟨l, ?_, hmp⟩
    unfold loadExample
    simpa using hl
  · obtain ⟨l, hl, hmp⟩ :=
      loadSeries_text_ok loadConf (ospathJoin path "data/fish.txt") 3 none (some 1) "conf.json"
    refine ⟨l, ?_, hmp⟩
    unfold loadExample
    simpa using hl
  · unfold loadExample
    simp [h1, h2]

/-- C5 witness: `iris` loads the bundled file as text with one partition and
`qux` is rejected with a message naming it. -/
theorem loadExample_spec_witness :
    (∃ l, loadExample (fun _ _ => none) "/pkg" "iris" =
        .ok (.fromText l (ospathJoin "/pkg" "data/iris.txt")) ∧ l.minPartitions = some 1) ∧
    ("qux" : String) ≠ "iris" ∧ ("qux" : String) ≠ "fish" ∧
    loadExample (fun _ _ => none) "/pkg" "qux" =
      .error (.notImplementedError (some ("Dataset \x27" ++ "qux" ++ "\x27 not found"))) :=
  ⟨(loadExample_spec (fun _ _ => none) "/pkg").1, by decide, by decide,
    (loadExample_spec (fun _ _ => none) "/pkg").2.2 "qux" (by decide) (by decide)⟩

/-- C6: whenever the Spark master string does not contain `ec`, the remote
example loader raises the generic `Exception` immediately, for every dataset
name and every environment — no dataset dispatch, no remote I/O. -/
theorem loadExampleEC2_requires_ec2 (loadConf : String → String → Option ConfParams)
    (master : String) (getTrials : String → List Int) (dataset : String)
    (h : pyIn "ec" master = false) :
    loadExampleEC2 loadConf master getTrials dataset =
      .error (.exception "must be running on EC2 to load this example data sets") := by
  unfold loadExampleEC2
  simp [h]

/-- C6 witness: with master `local`, even the recognized dataset name fails
with the EC2 precondition error. -/
theorem loadExampleEC2_requires_ec2_witness :
    pyIn "ec" "local" = false ∧
    loadExampleEC2 (fun _ _ => none) "local" (fun _ => [])
        "zebrafish-optomotor-response" =
      .error (.exception "must be running on EC2 to load this example data sets") :=
  ⟨by decide,
    loadExampleEC2_requires_ec2 (fun _ _ => none) "local" (fun _ => [])
      "zebrafish-optomotor-response" (by decide)⟩

/-- C7: a matrix variable with more than two dimensions makes `loadMatLocal`
raise `IOError` (the check runs on the loaded variable, i.e. after the read);
a 1- or 2-dimensional variable with no key file yields records whose keys are
the 1-based indices `1..N` in row order, `N` the row count. -/
theorem loadMatLocal_spec {V : Type} (matVar : String → String → MatArray V)
    (matKeys : String → List (List Nat)) (pre : String → V → V)
    (datafile varname : String) (filter : Option String) (minPartitions : Nat) :
    ((matVar datafile varname).ndim > 2 → ∀ keyfile,
      loadMatLocal matVar matKeys pre datafile varname keyfile filter minPartitions =
        .error (.ioError "input data must be one or two dimensional")) ∧
    (1 ≤ (matVar datafile varname).ndim → (matVar datafile varname).ndim ≤ 2 →
      ∃ recs,
        loadMatLocal matVar matKeys pre datafile varname none filter minPartitions =
          .ok recs ∧
        recs.map Prod.fst =
          (List.range (matVar datafile varname).items.length).map
            (fun i => MatKey.idx (i + 1))) := by
  constructor
  · intro h keyfile
    unfold loadMatLocal
    simp [h]
  · intro h1 h2
    refine ⟨preprocess pre
        (((List.range (matVar datafile varname).items.length).map
            (fun i => MatKey.idx (i + 1))).zip (matVar datafile varname).items) filter,
      ?_, ?_⟩
    · have hn : ¬ ((matVar datafile varname).ndim > 2) := by omega
      unfold loadMatLocal
      simp [hn, pyTruthy]
    · rw [preprocess_map_fst]
      exact List.map_fst_zip _ _ (by simp)

/-- C7 witness: a 3-dimensional variable is rejected with `IOError`; a
2-row 2-dimensional variable with no key file gets keys `[1, 2]`. -/
theorem loadMatLocal_spec_witness :
    (3 > 2) ∧ (1 ≤ 2) ∧ ((2 : Nat) ≤ 2) ∧
    loadMatLocal (fun _ _ => (⟨3, ([] : List Nat)⟩ : MatArray Nat)) (fun _ => [])
        (fun _ v => v) "f" "v" none none 1 =
      .error (.ioError "input data must be one or two dimensional") ∧
    ∃ recs,
      loadMatLocal (fun _ _ => (⟨2, ([10, 20] : List Nat)⟩ : MatArray Nat)) (fun _ => [])
          (fun _ v => v) "f" "v" none none 1 = .ok recs ∧
      recs.map Prod.fst = (List.range 2).map (fun i => MatKey.idx (i + 1)) :=
  ⟨by decide, by decide, by decide,
    (loadMatLocal_spec (fun _ _ => (⟨3, ([] : List Nat)⟩ : MatArray Nat)) (fun _ => [])
      (fun _ v => v) "f" "v" none 1).1 (by decide) none,
    (loadMatLocal_spec (fun _ _ => (⟨2, ([10, 20] : List Nat)⟩ : MatArray Nat)) (fun _ => [])
      (fun _ v => v) "f" "v" none 1).2 (by decide) (by decide)⟩

/-- Binary-format series loading dispatches to `fromBinary` whenever `nvalues`
is supplied or a configuration file is found. -/
theorem loadSeries_binary_ok (loadConf : String → String → Option ConfParams)
    (datafile : String) (nkeys : Nat) (nvalues : Option Nat)
    (minPartitions : Option Nat) (conffile : String)
    (h : nvalues ≠ none ∨ loadConf datafile conffile ≠ none) :
    ∃ l, loadSeries loadConf datafile nkeys nvalues "binary" minPartitions conffile =
        .ok (.fromBinary l datafile) := by
  have hb : pyLower "binary" = "binary" := by decide
  rcases hconf : loadConf datafile conffile with _ | p
  · rcases nvalues with _ | v
    · rcases h with h | h
      · exact absurd rfl h
      · exact absurd hconf h
    · refine ⟨⟨nkeys, some v, minPartitions⟩, ?_⟩
      unfold loadSeries
      rw [hb]
      simp [hconf]
  · refine ⟨⟨p.nkeys, some p.nvalues, minPartitions⟩, ?_⟩
    unfold loadSeries
    rw [hb]
    simp [hconf]

/-- C10: format-tag matching is case-insensitive: any tag lowering to `text`,
`binary`, `stack`, `tif` or `png` behaves exactly as the lowercase tag does
and dispatches to the corresponding loading path (so the invalid-format
rejection is never taken for such tags). -/
theorem load_format_case_insensitive
    (loadConf : String → String → Option ConfParams) (datafile : String)
    (nkeys : Nat) (nvalues : Option Nat) (minPartitions : Option Nat)
    (conffile : String) (dims : Option (List Nat)) (tag : String) :
    (pyLower tag = "text" →
      loadSeries loadConf datafile nkeys nvalues tag minPartitions conffile =
        loadSeries loadConf datafile nkeys nvalues "text" minPartitions conffile ∧
      ∃ l, loadSeries loadConf datafile nkeys nvalues tag minPartitions conffile =
        .ok (.fromText l datafile)) ∧
    (pyLower tag = "binary" →
      loadSeries loadConf datafile nkeys nvalues tag minPartitions conffile =
        loadSeries loadConf datafile nkeys nvalues "binary" minPartitions conffile ∧
      ((nvalues ≠ none ∨ loadConf datafile conffile ≠ none) →
        ∃ l, loadSeries loadConf datafile nkeys nvalues tag minPartitions conffile =
          .ok (.fromBinary l datafile))) ∧
    (pyLower tag = "stack" →
      loadImages datafile dims tag = loadImages datafile dims "stack" ∧
      loadImages datafile dims tag = .ok (.fromStack ⟨dims⟩ datafile)) ∧
    (pyLower tag = "tif" →
      loadImages datafile dims tag = loadImages datafile dims "tif" ∧
      loadImages datafile dims tag = .ok (.fromTif ⟨dims⟩ datafile)) ∧
    (pyLower tag = "png" →
      loadImages datafile dims tag = loadImages datafile dims "png" ∧
      loadImages datafile dims tag = .ok (.fromPng ⟨dims⟩ datafile)) := by
  refine ⟨fun h => ?_, fun h => ?_, fun h => ?_, fun h => ?_, fun h => ?_⟩
  · have heq : loadSeries loadConf datafile nkeys nvalues tag minPartitions conffile =
        loadSeries loadConf datafile nkeys nvalues "text" minPartitions conffile := by
      unfold loadSeries
      rw [h, show pyLower "text" = "text" by decide]
      simp
    obtain ⟨l, hl, _⟩ :=
      loadSeries_text_ok loadConf datafile nkeys nvalues minPartitions conffile
    exact ⟨heq, l, heq ▸ hl⟩
  · have heq : loadSeries loadConf datafile nkeys nvalues tag minPartitions conffile =
        loadSeries loadConf datafile nkeys nvalues "binary" minPartitions conffile := by
      unfold loadSeries
      rw [h, show pyLower "binary" = "binary" by decide]
      simp
    refine ⟨heq, fun hs => ?_⟩
    obtain ⟨l, hl⟩ :=
      loadSeries_binary_ok loadConf datafile nkeys nvalues minPartitions conffile hs
    exact ⟨l, heq ▸ hl⟩
  · have heq : loadImages datafile dims tag = loadImages datafile dims "stack" := by
      unfold loadImages
      rw [h, show pyLower "stack" = "stack" by decide]
      simp
    refine ⟨heq, heq.trans ?_⟩
    unfold loadImages
    rw [show pyLower "stack" = "stack" by decide]
    simp
  · have heq : loadImages datafile dims tag = loadImages datafile dims "tif" := by
      unfold loadImages
      rw [h, show pyLower "tif" = "tif" by decide]
      simp
    refine ⟨heq, heq.trans ?_⟩
    unfold loadImages
    rw [show pyLower "tif" = "tif" by decide]
    simp
  · have heq : loadImages datafile dims tag = loadImages datafile dims "png" := by
      unfold loadImages
      rw [h, show pyLower "png" = "png" by decide]
      simp
    refine ⟨heq, heq.trans ?_⟩
    unfold loadImages
    rw [show pyLower "png" = "png" by decide]
    simp

/-- C10 witness: `TEXT` behaves as `text` for series loading (dispatching to
`fromText`) and `Tif` behaves as `tif` for image loading. -/
theorem load_format_case_insensitive_witness :
    pyLower "TEXT" = "text" ∧ pyLower "Tif" = "tif" ∧
    loadSeries (fun _ _ => none) "d" 3 none "TEXT" none "c" =
      loadSeries (fun _ _ => none) "d" 3 none "text" none "c" ∧
    (∃ l, loadSeries (fun _ _ => none) "d" 3 none "TEXT" none "c" =
      .ok (.fromText l "d")) ∧
    loadImages "d" none "Tif" = loadImages "d" none "tif" ∧
    loadImages "d" none "Tif" = .ok (.fromTif ⟨none⟩ "d") :=
  ⟨by decide, by decide,
    ((load_format_case_insensitive (fun _ _ => none) "d" 3 none none "c" none "TEXT").1
      (by decide)).1,
    ((load_format_case_insensitive (fun _ _ => none) "d" 3 none none "c" none "TEXT").1
      (by decide)).2,
    ((load_format_case_insensitive (fun _ _ => none) "d" 3 none none "c" none "Tif").2.2.2.1
      (by decide)).1,
    ((load_format_case_insensitive (fun _ _ => none) "d" 3 none none "c" none "Tif").2.2.2.1
      (by decide)).2⟩
